import Mathlib

/-!
Verification of the GoWeather multi-provider temperature aggregator.

The Go program (main.go / the multi-provider variant) is shallowly embedded:
  * `float64` temperatures are modelled as exact rationals `ℚ`; the one place
    where IEEE special values matter (division `sum / float64(len(w))` with an
    empty provider list) is modelled by `GoFloat`, a rational tagged with the
    `NaN` / `Inf` outcomes of Go float division.
  * Go `error` values are modelled as `String` (the message), and a Go
    `(value, error)` pair where exactly one side is meaningful is modelled as
    `Except String _`.
  * network I/O (`http.Get`) is modelled by a function `Net : String → NetResponse`
    mapping the requested URL to either a transport failure or a response body;
    a provider run also records the list of URLs it actually requested.
  * `encoding/json` decoding into a partial struct is modelled by `JsonBody`:
    an undecodable body carries the decoder's error message; a decodable body
    carries the provider's temperature field, which may be absent (in which
    case Go leaves the struct field at its zero value `0`).
  * the goroutine fan-out / `select` fan-in of `multiWeatherProvider.temperature`
    is modelled by an explicit completion order: a list of the provider
    outcomes in the (arbitrary) order the `select` loop receives them, which
    theorems constrain to be a permutation of the providers' outcomes.
-/

namespace GoWeather

/-- A Go `float64` result as produced by the aggregator's final division:
either an ordinary (here: exact rational) value, `NaN`, or a signed infinity. -/
inductive GoFloat where
  | nan : GoFloat
  | inf : Bool → GoFloat
  | val : ℚ → GoFloat
deriving DecidableEq

/-- Go float division `a / b` where `b = float64(n)` for a list length `n`:
`0.0/0 = NaN`, nonzero `/0` is a signed infinity, otherwise exact division. -/
def goDiv (a : ℚ) (n : ℕ) : GoFloat :=
  if n = 0 then (if a = 0 then .nan else .inf (decide (0 < a))) else .val (a / n)

/-- An upstream HTTP response body, as seen through `json.Decoder.Decode` into
the provider's partial struct: either not decodable (with the decoder's error
message), or decodable with the schema's temperature field present or absent. -/
inductive JsonBody where
  | invalid : String → JsonBody
  | valid : Option ℚ → JsonBody
deriving DecidableEq

/-- Outcome of `http.Get` on a URL: a transport error or a body. -/
inductive NetResponse where
  | netErr : String → NetResponse
  | body : JsonBody → NetResponse
deriving DecidableEq

/-- The network: what a GET to each URL returns. -/
def Net : Type := String → NetResponse

/-- One provider `temperature` call: the URLs it requested, in order, and the
Go `(float64, error)` return. -/
structure ProviderRun where
  requests : List String
  result : Except String ℚ

/-- The URL `openWeatherMap.temperature` builds:
`"http://api.openweathermap.org/data/2.5/weather?q=" + city`. -/
def owmURL (city : String) : String :=
  "http://api.openweathermap.org/data/2.5/weather?q=" ++ city

/-- `openWeatherMap.temperature`: GET the fixed endpoint with the city
interpolated, decode `{main:{temp}}`, return `d.Main.Kelvin` unchanged
(zero value `0` when the field is absent). -/
def openWeatherMap.temperature (net : Net) (city : String) : ProviderRun :=
  match net (owmURL city) with
  | .netErr e => ⟨[owmURL city], .error e⟩
  | .body (.invalid e) => ⟨[owmURL city], .error e⟩
  | .body (.valid t) => ⟨[owmURL city], .ok (t.getD 0)⟩

/-- The URL `weatherUnderground.temperature` builds:
`"http://api.wunderground.com/api/" + wuKey + "/conditions/q/" + city + ".json"`. -/
def wuURL (wuKey city : String) : String :=
  "http://api.wunderground.com/api/" ++ wuKey ++ "/conditions/q/" ++ city ++ ".json"

/-- `weatherUnderground.temperature`: if the API key is empty, fail at once
with no request; otherwise GET the endpoint, decode
`{current_observation:{temp_c}}` (zero value `0` when absent), and return
`kelvin := celsius + 273.15`. -/
def weatherUnderground.temperature (wuKey : String) (net : Net) (city : String) :
    ProviderRun :=
  if wuKey = "" then ⟨[], .error "Weather Underground API key must be set"⟩
  else
    match net (wuURL wuKey city) with
    | .netErr e => ⟨[wuURL wuKey city], .error e⟩
    | .body (.invalid e) => ⟨[wuURL wuKey city], .error e⟩
    | .body (.valid t) => ⟨[wuURL wuKey city], .ok (t.getD 0 + 273.15)⟩

/-- The `weatherProvider` interface: `temperature(city) (float64, error)`. -/
def WeatherProvider : Type := String → Except String ℚ

/-- The aggregator's Kelvin-to-Fahrenheit conversion `f := (temp * 1.8) - 459.67`. -/
def kToF (temp : ℚ) : ℚ := temp * 1.8 - 459.67

/-- The outcomes the spawned goroutines push into the channels: each provider's
`temperature(city)` result, listed in provider order. -/
def outcomes (w : List WeatherProvider) (city : String) : List (Except String ℚ) :=
  w.map (fun p => p city)

/-- The `select` collection loop of `multiWeatherProvider.temperature`, run over
the outcomes in completion order: each successful temperature is converted to
Fahrenheit and accumulated into `sum`; the first error ends the loop and is
returned. -/
def collectTemps : List (Except String ℚ) → ℚ → Except String ℚ
  | [], sum => .ok sum
  | .ok temp :: rest, sum => collectTemps rest (sum + kToF temp)
  | .error e :: _, _ => .error e

/-- `multiWeatherProvider.temperature`: run the collection loop over the
completion order (a permutation, fixed by the scheduler, of `outcomes w city`);
on success return `sum / float64(len(w))`, on the first error return it. -/
def multiWeatherProvider.temperature (w : List WeatherProvider) (city : String)
    (order : List (Except String ℚ)) : Except String GoFloat :=
  match collectTemps order 0 with
  | .error e => .error e
  | .ok sum => .ok (goDiv sum w.length)

/-- A response body written by the handler: either plain text (`http.Error`),
or the JSON encoding of the success map `{"city":…, "temp":…, "took":…}`. -/
inductive Body where
  | text : String → Body
  | jsonSuccess : String → GoFloat → String → Body
deriving DecidableEq

/-- An HTTP response: status code, headers set, body written. -/
structure Response where
  status : ℕ
  headers : List (String × String)
  body : Body
deriving DecidableEq

/-- Go `strings.SplitN(s, sep, n)` for `n ≥ 1`: at most `n` pieces, the last
piece keeping the unsplit remainder. -/
def splitN (s sep : String) (n : ℕ) : List String :=
  let parts := s.splitOn sep
  if parts.length ≤ n then parts
  else parts.take (n - 1) ++ [String.intercalate sep (parts.drop (n - 1))]

/-- The city parsed by the handler: `strings.SplitN(req.URL.Path, "/", 3)[2]`
(the route prefix `/weather/` guarantees the index exists). -/
def cityOf (path : String) : String :=
  (splitN path "/" 3).getD 2 ""

/-- The `weather` HTTP handler: parse the city from the path, call the
aggregator; on error reply via `http.Error` (status 500, plain-text headers,
the message plus a newline); on success reply 200 with the JSON content type
and the encoded `{city, temp, took}` map. -/
def weather (mwTemp : String → Except String GoFloat) (path took : String) :
    Response :=
  match mwTemp (cityOf path) with
  | .error e =>
      ⟨500,
       [("Content-Type", "text/plain; charset=utf-8"),
        ("X-Content-Type-Options", "nosniff")],
       .text (e ++ "\n")⟩
  | .ok t =>
      ⟨200, [("Content-Type", "application/json; charset=utf-8")],
       .jsonSuccess (cityOf path) t took⟩

/-- Scenario provider A: openWeatherMap reporting `300.0 K` (native Kelvin,
pass-through), viewed through the `weatherProvider` interface. -/
def provA : WeatherProvider :=
  fun city => (openWeatherMap.temperature
    (fun _ => .body (.valid (some 300))) city).result

/-- Scenario provider B: weatherUnderground with a nonempty key whose upstream
reports `25.0°C`, viewed through the `weatherProvider` interface. -/
def provB : WeatherProvider :=
  fun city => (weatherUnderground.temperature "key"
    (fun _ => .body (.valid (some 25))) city).result

/-! ### Helper lemmas about the collection loop -/

lemma collectTemps_map_ok (ks : List ℚ) (s : ℚ) :
    collectTemps (ks.map Except.ok) s = .ok (s + (ks.map kToF).sum) := by
  induction ks generalizing s with
  | nil => simp [collectTemps]
  | cons k ks ih => simp [collectTemps, ih, add_assoc]

lemma exists_map_ok_of_perm :
    ∀ (l : List (Except String ℚ)) (ks : List ℚ),
      l.Perm (ks.map Except.ok) →
      ∃ ks2 : List ℚ, l = ks2.map Except.ok ∧ ks2.Perm ks := by
  intro l
  induction l with
  | nil =>
    intro ks h
    have : ks.map Except.ok = [] := h.symm.eq_nil
    have hks : ks = [] := by
      cases ks with
      | nil => rfl
      | cons a t => simp at this
    exact ⟨[], by simp, by simp [hks]⟩
  | cons x l ih =>
    intro ks h
    have hx : x ∈ ks.map Except.ok := h.mem_iff.mp (List.mem_cons_self x l)
    obtain ⟨k, hk, rfl⟩ := List.mem_map.mp hx
    have hperm2 : (Except.ok k :: l).Perm
        (Except.ok k :: (ks.erase k).map Except.ok) := by
      have h1 : ks.Perm (k :: ks.erase k) := List.perm_cons_erase hk
      have h2 : (ks.map Except.ok).Perm
          ((k :: ks.erase k).map (Except.ok : ℚ → Except String ℚ)) := h1.map _
      exact h.trans h2
    have hl : l.Perm ((ks.erase k).map Except.ok) :=
      (List.perm_cons _).mp hperm2
    obtain ⟨ks2, hmap, hp⟩ := ih (ks.erase k) hl
    refine ⟨k :: ks2, by simp [hmap], ?_⟩
    exact ((hp.cons k).trans (List.perm_cons_erase hk).symm)

lemma collectTemps_error_of_mem :
    ∀ (l : List (Except String ℚ)) (s : ℚ) (e : String),
      Except.error e ∈ l →
      ∃ e2, collectTemps l s = .error e2 ∧ Except.error e2 ∈ l := by
  intro l
  induction l with
  | nil => intro s e h; simp at h
  | cons x l ih =>
    intro s e h
    match x with
    | .error e0 => exact ⟨e0, rfl, List.mem_cons_self _ _⟩
    | .ok k =>
      have hmem : Except.error e ∈ l := by
        rcases List.mem_cons.mp h with h1 | h1
        · exact absurd h1 (by simp)
        · exact h1
      obtain ⟨e2, h1, h2⟩ := ih (s + kToF k) e hmem
      exact ⟨e2, by simpa [collectTemps] using h1, List.mem_cons_of_mem _ h2⟩

lemma multi_temperature_all_ok (w : List WeatherProvider) (city : String)
    (ks : List ℚ) (order : List (Except String ℚ))
    (hout : outcomes w city = ks.map Except.ok)
    (hperm : order.Perm (outcomes w city)) :
    multiWeatherProvider.temperature w city order
      = .ok (goDiv (ks.map kToF).sum w.length) := by
  rw [hout] at hperm
  obtain ⟨ks2, rfl, hp⟩ := exists_map_ok_of_perm order ks hperm
  have hsum : (ks2.map kToF).sum = (ks.map kToF).sum := (hp.map kToF).sum_eq
  unfold multiWeatherProvider.temperature
  rw [collectTemps_map_ok, zero_add, hsum]

lemma multi_temperature_error (w : List WeatherProvider) (city : String)
    (order : List (Except String ℚ)) (e : String)
    (hmem : Except.error e ∈ outcomes w city)
    (hperm : order.Perm (outcomes w city)) :
    ∃ e2, multiWeatherProvider.temperature w city order = .error e2
      ∧ Except.error e2 ∈ outcomes w city := by
  have hmem2 : Except.error e ∈ order := hperm.mem_iff.mpr hmem
  obtain ⟨e2, h1, h2⟩ := collectTemps_error_of_mem order 0 e hmem2
  exact ⟨e2, by unfold multiWeatherProvider.temperature; rw [h1],
    hperm.mem_iff.mp h2⟩

lemma scenario_outcomes :
    outcomes [provA, provB] "Boston" = [Except.ok 300, Except.ok 298.15] := by
  simp [outcomes, provA, provB, openWeatherMap.temperature,
    weatherUnderground.temperature, wuURL]
  norm_num

lemma collectTemps_error_unique (l : List (Except String ℚ)) (s : ℚ) (e : String)
    (hmem : Except.error e ∈ l)
    (huniq : ∀ e2, Except.error e2 ∈ l → e2 = e) :
    collectTemps l s = .error e := by
  obtain ⟨e2, h1, h2⟩ := collectTemps_error_of_mem l s e hmem
  rw [h1, huniq e2 h2]

/-! ### Claim theorems -/

/-- C1: when every provider succeeds with Kelvin values `k1..kN` (and `N ≥ 1`),
`multiWeatherProvider.temperature` returns a nil error and the value
`(∑ i, ki*1.8 - 459.67) / N`, the average of the Fahrenheit conversions,
for every completion order of the provider results. -/
theorem C1_all_success_average (w : List WeatherProvider) (city : String)
    (ks : List ℚ) (order : List (Except String ℚ))
    (hout : outcomes w city = ks.map Except.ok)
    (hperm : order.Perm (outcomes w city))
    (hN : 0 < w.length) :
    multiWeatherProvider.temperature w city order
      = .ok (.val ((ks.map kToF).sum / w.length)) := by
  rw [multi_temperature_all_ok w city ks order hout hperm]
  unfold goDiv
  rw [if_neg (Nat.pos_iff_ne_zero.mp hN)]

/-- C1 witness: one provider succeeding with `300 K`; the aggregate is the
average of its Fahrenheit conversion, `80.33°F`. -/
theorem C1_witness :
    multiWeatherProvider.temperature [fun _ => Except.ok 300] "London"
        [Except.ok 300]
      = .ok (.val 80.33) := by
  rw [C1_all_success_average [fun _ => Except.ok 300] "London" [300]
    [Except.ok 300] rfl (List.Perm.refl _) (by norm_num)]
  norm_num [kToF]

/-- C2: with `N ≥ 2` providers, if at least one provider returns an error then
the aggregate returns an error — one actually produced by a provider — and no
temperature value, whatever the completion order. -/
theorem C2_single_error_fails_all (w : List WeatherProvider) (city : String)
    (order : List (Except String ℚ)) (e : String)
    (hN : 2 ≤ w.length)
    (hmem : Except.error e ∈ outcomes w city)
    (hperm : order.Perm (outcomes w city)) :
    ∃ e2, multiWeatherProvider.temperature w city order = .error e2
      ∧ Except.error e2 ∈ outcomes w city :=
  multi_temperature_error w city order e hmem hperm

/-- C2 witness: one of two providers fails; the aggregate fails even though
the other provider succeeded, for a completion order delivering the error
first. -/
theorem C2_witness :
    ∃ e2, multiWeatherProvider.temperature
        [fun _ => Except.ok 300, fun _ => Except.error "boom"] "x"
        [Except.error "boom", Except.ok 300] = .error e2
      ∧ Except.error e2 ∈ outcomes
          [fun _ => Except.ok 300, fun _ => Except.error "boom"] "x" :=
  C2_single_error_fails_all _ "x" _ "boom" (by norm_num)
    (by simp [outcomes]) (List.Perm.swap _ _ _)

/-- C3: openWeatherMap passes its upstream temperature field through unchanged
(native Kelvin); weatherUnderground converts Celsius via
`kelvin = celsius + 273.15`, so upstream `20.0°C` yields `293.15 K`; and the
aggregator's conversion sends `293.15 K` to `(293.15*1.8) - 459.67 = 68.0°F`. -/
theorem C3_unit_normalization :
    (∀ (net : Net) (city : String) (t : ℚ),
        net (owmURL city) = .body (.valid (some t)) →
        (openWeatherMap.temperature net city).result = .ok t)
  ∧ (∀ (key : String) (net : Net) (city : String) (c : ℚ),
        key ≠ "" →
        net (wuURL key city) = .body (.valid (some c)) →
        (weatherUnderground.temperature key net city).result = .ok (c + 273.15))
  ∧ ((weatherUnderground.temperature "k"
        (fun _ => .body (.valid (some 20))) "c").result = .ok 293.15)
  ∧ kToF 293.15 = 68 := by
  refine ⟨?_, ?_, ?_, ?_⟩
  · intro net city t h
    simp [openWeatherMap.temperature, h]
  · intro key net city c hkey h
    simp [weatherUnderground.temperature, hkey, h]
  · simp [weatherUnderground.temperature, wuURL]
    norm_num
  · norm_num [kToF]

/-- C3 witness: openWeatherMap with upstream field `300` returns `300 K`
unchanged. -/
theorem C3_witness :
    (openWeatherMap.temperature (fun _ => .body (.valid (some 300)))
      "Paris").result = .ok 300 :=
  C3_unit_normalization.1 _ "Paris" 300 rfl

/-- C4: a provider call fails exactly when the network call fails or the body
is undecodable (for weatherUnderground, given a nonempty key); with an empty
key, weatherUnderground fails immediately, making no request at all. -/
theorem C4_provider_error_conditions :
    (∀ (net : Net) (city : String),
        ((∃ e, (openWeatherMap.temperature net city).result = .error e)
          ↔ ((∃ e, net (owmURL city) = .netErr e)
              ∨ (∃ e, net (owmURL city) = .body (.invalid e)))))
  ∧ (∀ (key : String) (net : Net) (city : String),
        key ≠ "" →
        ((∃ e, (weatherUnderground.temperature key net city).result = .error e)
          ↔ ((∃ e, net (wuURL key city) = .netErr e)
              ∨ (∃ e, net (wuURL key city) = .body (.invalid e)))))
  ∧ (∀ (net : Net) (city : String),
        weatherUnderground.temperature "" net city
          = ⟨[], .error "Weather Underground API key must be set"⟩) := by
  refine ⟨?_, ?_, ?_⟩
  · intro net city
    cases h : net (owmURL city) with
    | netErr e => simp [openWeatherMap.temperature, h]
    | body b =>
      cases b with
      | invalid e => simp [openWeatherMap.temperature, h]
      | valid t => simp [openWeatherMap.temperature, h]
  · intro key net city hkey
    cases h : net (wuURL key city) with
    | netErr e => simp [weatherUnderground.temperature, hkey, h]
    | body b =>
      cases b with
      | invalid e => simp [weatherUnderground.temperature, hkey, h]
      | valid t => simp [weatherUnderground.temperature, hkey, h]
  · intro net city
    simp [weatherUnderground.temperature]

/-- C4 witness: with a nonempty key and a failing transport, weatherUnderground
fails, and the failure condition biconditional holds at that input. -/
theorem C4_witness :
    (∃ e, (weatherUnderground.temperature "k"
        (fun _ => .netErr "connection refused") "c").result = .error e)
      ↔ (((∃ e, (fun _ => NetResponse.netErr "connection refused" : Net)
              (wuURL "k" "c") = .netErr e)
          ∨ (∃ e, (fun _ => NetResponse.netErr "connection refused" : Net)
              (wuURL "k" "c") = .body (.invalid e)))) :=
  C4_provider_error_conditions.2.1 "k" _ "c" (by decide)

/-- C5 counterexample: in the two-provider scenario (A: `300 K`,
B: `25.0°C` → `298.15 K`) the aggregate is exactly `78.665°F`, which is not
within `0.01` of the claimed `78.80°F`, and provider B's Fahrenheit conversion
is `77.00°F`, not within `0.01` of the claimed `77.27°F`. -/
theorem C5_counterexample :
    outcomes [provA, provB] "Boston" = [Except.ok 300, Except.ok 298.15]
  ∧ multiWeatherProvider.temperature [provA, provB] "Boston"
      [Except.ok 300, Except.ok 298.15] = .ok (.val 78.665)
  ∧ kToF 298.15 = 77
  ∧ ¬(|(78.665 : ℚ) - 78.80| ≤ 0.01)
  ∧ ¬(|(77 : ℚ) - 77.27| ≤ 0.01) := by
  refine ⟨scenario_outcomes, ?_, ?_, ?_, ?_⟩
  · simp [multiWeatherProvider.temperature, collectTemps, goDiv, kToF]
    norm_num
  · norm_num [kToF]
  · rw [abs_le]
    norm_num
  · rw [abs_le]
    norm_num

/-- C5 amended: with provider A succeeding at `300 K` and provider B at an
upstream `25.0°C` (normalized to `298.15 K`), the per-provider Fahrenheit
conversions are `80.33°F` and `77.00°F` (not `77.27°F`), and the aggregate
average is exactly `78.665°F` (≈ `78.67°F`, not `78.80°F`), for every
completion order. -/
theorem C5_amended (order : List (Except String ℚ))
    (hperm : order.Perm (outcomes [provA, provB] "Boston")) :
    multiWeatherProvider.temperature [provA, provB] "Boston" order
      = .ok (.val 78.665)
  ∧ kToF 300 = 80.33
  ∧ kToF 298.15 = 77
  ∧ |(78.665 : ℚ) - 78.67| ≤ 0.01 := by
  have hout : outcomes [provA, provB] "Boston"
      = ([300, 298.15] : List ℚ).map Except.ok := by
    rw [scenario_outcomes]; rfl
  have h := multi_temperature_all_ok _ "Boston" [300, 298.15] order hout hperm
  refine ⟨?_, ?_, ?_, ?_⟩
  · rw [h]
    norm_num [goDiv, kToF]
  · norm_num [kToF]
  · norm_num [kToF]
  · rw [abs_le]
    norm_num

/-- C5 witness: the amended aggregate value at the swapped completion order. -/
theorem C5_witness :
    multiWeatherProvider.temperature [provA, provB] "Boston"
        [Except.ok 298.15, Except.ok 300]
      = .ok (.val 78.665) :=
  (C5_amended [Except.ok 298.15, Except.ok 300]
    (by rw [scenario_outcomes]; exact List.Perm.swap _ _ _)).1

/-- C6 counterexample: two providers failing with different errors, two valid
completion orders for identical provider responses, and the aggregator
returning a different error outcome for each — the error outcome is not
deterministic. -/
theorem C6_counterexample :
    ([Except.error "boom A", Except.error "boom B"]
        : List (Except String ℚ)).Perm
      (outcomes [fun _ => Except.error "boom A",
        fun _ => Except.error "boom B"] "x")
  ∧ ([Except.error "boom B", Except.error "boom A"]
        : List (Except String ℚ)).Perm
      (outcomes [fun _ => Except.error "boom A",
        fun _ => Except.error "boom B"] "x")
  ∧ multiWeatherProvider.temperature
      [fun _ => Except.error "boom A", fun _ => Except.error "boom B"] "x"
      [Except.error "boom A", Except.error "boom B"]
    ≠ multiWeatherProvider.temperature
      [fun _ => Except.error "boom A", fun _ => Except.error "boom B"] "x"
      [Except.error "boom B", Except.error "boom A"] := by
  refine ⟨List.Perm.refl _, List.Perm.swap _ _ _, ?_⟩
  simp [multiWeatherProvider.temperature, collectTemps]

/-- C6 amended: the aggregate is deterministic across completion orders when
all providers succeed (the average is order-independent), and also when all
provider errors agree on a single message; only the identity of the returned
error among several distinct provider errors depends on completion order. -/
theorem C6_amended_determinism :
    (∀ (w : List WeatherProvider) (city : String) (ks : List ℚ)
        (o1 o2 : List (Except String ℚ)),
        outcomes w city = ks.map Except.ok →
        o1.Perm (outcomes w city) → o2.Perm (outcomes w city) →
        multiWeatherProvider.temperature w city o1
          = multiWeatherProvider.temperature w city o2)
  ∧ (∀ (w : List WeatherProvider) (city : String) (e : String)
        (o1 o2 : List (Except String ℚ)),
        Except.error e ∈ outcomes w city →
        (∀ e2, Except.error e2 ∈ outcomes w city → e2 = e) →
        o1.Perm (outcomes w city) → o2.Perm (outcomes w city) →
        multiWeatherProvider.temperature w city o1
          = multiWeatherProvider.temperature w city o2) := by
  constructor
  · intro w city ks o1 o2 hout h1 h2
    rw [multi_temperature_all_ok w city ks o1 hout h1,
      multi_temperature_all_ok w city ks o2 hout h2]
  · intro w city e o1 o2 hmem huniq h1 h2
    have u1 : collectTemps o1 0 = .error e :=
      collectTemps_error_unique o1 0 e (h1.mem_iff.mpr hmem)
        (fun e2 he2 => huniq e2 (h1.mem_iff.mp he2))
    have u2 : collectTemps o2 0 = .error e :=
      collectTemps_error_unique o2 0 e (h2.mem_iff.mpr hmem)
        (fun e2 he2 => huniq e2 (h2.mem_iff.mp he2))
    unfold multiWeatherProvider.temperature
    rw [u1, u2]

/-- C6 witness: two all-successful completion orders of the same two provider
responses give the same aggregate. -/
theorem C6_witness :
    multiWeatherProvider.temperature
        [fun _ => Except.ok 300, fun _ => Except.ok 400] "x"
        [Except.ok 300, Except.ok 400]
      = multiWeatherProvider.temperature
        [fun _ => Except.ok 300, fun _ => Except.ok 400] "x"
        [Except.ok 400, Except.ok 300] :=
  C6_amended_determinism.1 _ "x" [300, 400] _ _ rfl
    (List.Perm.refl _) (List.Perm.swap _ _ _)

/-- C7: with an empty provider list the collection loop runs zero times, no
error branch is taken, and the aggregator returns a nil error together with
`0.0 / float64(0) = NaN`, for every city. -/
theorem C7_empty_provider_list (city : String)
    (order : List (Except String ℚ))
    (hperm : order.Perm (outcomes [] city)) :
    multiWeatherProvider.temperature [] city order = .ok .nan := by
  have h0 : outcomes ([] : List WeatherProvider) city = [] := rfl
  rw [h0] at hperm
  have h1 : order = [] := hperm.eq_nil
  subst h1
  rfl

/-- C7 witness: the empty provider list at a concrete city. -/
theorem C7_witness :
    multiWeatherProvider.temperature [] "London" [] = .ok .nan :=
  C7_empty_provider_list "London" [] (List.Perm.refl _)

/-- C8: a valid body lacking the temperature field decodes successfully with
the zero value: openWeatherMap returns `0 K` with nil error, and
weatherUnderground returns `0 + 273.15 = 273.15 K` with nil error. -/
theorem C8_missing_field_zero_value :
    (∀ (net : Net) (city : String),
        net (owmURL city) = .body (.valid none) →
        (openWeatherMap.temperature net city).result = .ok 0)
  ∧ (∀ (key : String) (net : Net) (city : String),
        key ≠ "" →
        net (wuURL key city) = .body (.valid none) →
        (weatherUnderground.temperature key net city).result = .ok 273.15) := by
  constructor
  · intro net city h
    simp [openWeatherMap.temperature, h]
  · intro key net city hkey h
    simp [weatherUnderground.temperature, hkey, h]

/-- C8 witness: openWeatherMap on a field-less valid body returns `0 K`. -/
theorem C8_witness :
    (openWeatherMap.temperature (fun _ => .body (.valid none)) "c").result
      = .ok 0 :=
  C8_missing_field_zero_value.1 _ "c" rfl

/-- C9: each provider issues exactly one request, to its fixed endpoint with
the city (and, for weatherUnderground, the key) interpolated verbatim. -/
theorem C9_url_interpolation :
    (∀ (net : Net) (city : String),
        (openWeatherMap.temperature net city).requests
          = ["http://api.openweathermap.org/data/2.5/weather?q=" ++ city])
  ∧ (∀ (key : String) (net : Net) (city : String),
        key ≠ "" →
        (weatherUnderground.temperature key net city).requests
          = ["http://api.wunderground.com/api/" ++ key
              ++ "/conditions/q/" ++ city ++ ".json"]) := by
  constructor
  · intro net city
    show (openWeatherMap.temperature net city).requests = [owmURL city]
    unfold openWeatherMap.temperature
    cases net (owmURL city) with
    | netErr e => rfl
    | body b =>
      cases b with
      | invalid e => rfl
      | valid t => rfl
  · intro key net city hkey
    show (weatherUnderground.temperature key net city).requests
      = [wuURL key city]
    unfold weatherUnderground.temperature
    rw [if_neg hkey]
    cases net (wuURL key city) with
    | netErr e => rfl
    | body b =>
      cases b with
      | invalid e => rfl
      | valid t => rfl

/-- C9 witness: the weatherUnderground request URL at key `"k"`, city `"c"`. -/
theorem C9_witness :
    (weatherUnderground.temperature "k" (fun _ => .netErr "down")
        "c").requests
      = ["http://api.wunderground.com/api/" ++ "k"
          ++ "/conditions/q/" ++ "c" ++ ".json"] :=
  C9_url_interpolation.2 "k" _ "c" (by decide)

/-- C10: whenever the temperature query errors, the handler responds 500 with
the error's message as the body text (plus Go's trailing newline) and writes
no success payload; on a nil error it writes the 200 JSON success response. -/
theorem C10_handler_error_mapping :
    (∀ (mwTemp : String → Except String GoFloat) (path took e : String),
        mwTemp (cityOf path) = .error e →
        weather mwTemp path took
          = ⟨500,
             [("Content-Type", "text/plain; charset=utf-8"),
              ("X-Content-Type-Options", "nosniff")],
             .text (e ++ "\n")⟩)
  ∧ (∀ (mwTemp : String → Except String GoFloat) (path took e : String)
        (c : String) (t : GoFloat) (k : String),
        mwTemp (cityOf path) = .error e →
        (weather mwTemp path took).body ≠ .jsonSuccess c t k)
  ∧ (∀ (mwTemp : String → Except String GoFloat) (path took : String)
        (t : GoFloat),
        mwTemp (cityOf path) = .ok t →
        weather mwTemp path took
          = ⟨200, [("Content-Type", "application/json; charset=utf-8")],
             .jsonSuccess (cityOf path) t took⟩) := by
  refine ⟨?_, ?_, ?_⟩
  · intro mwTemp path took e h
    simp [weather, h]
  · intro mwTemp path took e c t k h
    simp [weather, h]
  · intro mwTemp path took t h
    simp [weather, h]

/-- C10 witness: a failing aggregate maps to a 500 with the message body. -/
theorem C10_witness :
    weather (fun _ => .error "boom") "/weather/london" "5ms"
      = ⟨500,
         [("Content-Type", "text/plain; charset=utf-8"),
          ("X-Content-Type-Options", "nosniff")],
         .text ("boom" ++ "\n")⟩ :=
  C10_handler_error_mapping.1 _ "/weather/london" "5ms" "boom" rfl

end GoWeather
